import Mathlib

/-!
Shallow embedding of the VirtualBox build-configuration script
(configure.py) and verification of its specification.

Every effect the script performs (filesystem tests, executable lookup via
shutil.which, subprocess runs, directory listing) is mediated by a `World`
oracle, so that all embedded functions are pure and executable.  An uncaught
Python exception propagating out of a modelled function is represented by
`Option`: the function returns `none`.  Machine integers do not occur in the
modelled code; subprocess return codes are modelled as `Int`.
-/

/-- kBuild build targets, class BuildTargets in configure.py lines 91-103. -/
inductive Target where
  | any
  | linux
  | windows
  | darwin
  | solaris
  | bsd
  | haiku
  | unknown
deriving DecidableEq

/-- Python str.startswith, computed on the character lists so that it
evaluates inside the kernel. -/
def strStartsWith (s pre : String) : Bool := pre.data.isPrefixOf s.data

/-- Drops the first n characters of a string. -/
def strDrop (s : String) (n : Nat) : String := String.mk (s.data.drop n)

/-- Python str.lower, character-wise. -/
def strToLower (s : String) : String := String.mk (s.data.map Char.toLower)

/-- Models os.path.join with POSIX semantics (the script computes paths with
the os.path of the host it runs on): an absolute second component replaces
the first one. -/
def pathJoin (a b : String) : String :=
  if strStartsWith b "/" then b else a ++ "/" ++ b

/-- Python str() of an optional string, as interpolated by an f-string:
None prints as the four letters None. -/
def optStr : Option String → String
  | none => "None"
  | some s => s

/-- Oracle for every effect configure.py performs.  `runSwitch`, `compileRun`
and `execRun` return `none` to model a raised subprocess.SubprocessError
(including timeouts); otherwise they return the return code paired with the
decoded first-line/stripped stdout that the script extracts. -/
structure World where
  pathExists : String → Bool
  isFile : String → Bool
  isExecFile : String → Bool
  which : String → Option String
  runSwitch : String → String → Option (Int × String)
  listDir : String → List String
  sepIsBackslash : Bool
  hostIsWindows : Bool
  compileRun : List String → Option (Int × String)
  execRun : String → Option (Int × String)

/-- Version-query switches tried by checkWhich, configure.py line 176. -/
def asSwitches : List String :=
  ["--version", "-V", "/?", "/h", "/help", "-version", "version"]

/-- Version-probing loop of checkWhich, configure.py lines 177-186: the first
switch returning code 0 wins; a SubprocessError aborts the whole lookup with
(None, None); if no switch succeeds the version is the unknown marker. -/
def tryVersionSwitches (w : World) (path : String) :
    List String → Option String × Option String
  | [] => (some path, some "<unknown>")
  | sw :: rest =>
    match w.runSwitch path sw with
    | none => (none, none)
    | some r => if r.1 == 0 then (some path, some r.2) else tryVersionSwitches w path rest

/-- checkWhich, configure.py lines 155-189.  With a custom path the command
must be an executable file exactly there, otherwise the lookup fails at once;
without one, shutil.which searches PATH.  A found command is then version
probed. -/
def checkWhich (w : World) (sCmdName : String) (sCustomPath : Option String) :
    Option String × Option String :=
  match sCustomPath with
  | some cp =>
    let p := pathJoin cp sCmdName
    if w.isExecFile p then tryVersionSwitches w p asSwitches else (none, none)
  | none =>
    match w.which sCmdName with
    | some p => tryVersionSwitches w p asSwitches
    | none => (none, none)

/-- State of a ToolCheck probe, configure.py lines 462-487.  The optional
custom callback (fnCallback) is passed to performCheck as an explicit
argument instead of being stored, to keep the structure first-order; a
default-constructed aeTargets of BuildTargets.ANY behaves exactly like the
one-element list containing `Target.any`. -/
structure ToolCheck where
  sName : String
  asCmd : List String
  aeTargets : List Target
  fDisabled : Bool
  sCustomPath : Option String
  fHave : Option Bool
  sCmdPath : Option String
  sVer : Option String
deriving DecidableEq

/-- Constructor state of ToolCheck.__init__, configure.py lines 466-487. -/
def ToolCheck.init (sName : String) (asCmd : List String) (aeTargets : List Target) :
    ToolCheck :=
  { sName := sName, asCmd := asCmd, aeTargets := aeTargets, fDisabled := false,
    sCustomPath := none, fHave := none, sCmdPath := none, sVer := none }

/-- ToolCheck.setArgs, configure.py lines 489-494. -/
def ToolCheck.setArgs (st : ToolCheck) (fDisabled : Bool) (sCustomPath : Option String) :
    ToolCheck :=
  { st with fDisabled := fDisabled, sCustomPath := sCustomPath }

/-- Candidate loop of ToolCheck.performCheck, configure.py lines 510-515:
each candidate is looked up; a hit stores path/version and sets fHave, a miss
stores (None, None) and returns False immediately, skipping the remaining
candidates. -/
def toolLoop (w : World) (st : ToolCheck) : List String → ToolCheck × Bool
  | [] => (st, true)
  | c :: cs =>
    let pv := checkWhich w c st.sCustomPath
    let st1 := { st with sCmdPath := pv.1, sVer := pv.2 }
    match pv.1 with
    | some _ => toolLoop w { st1 with fHave := some true } cs
    | none => (st1, false)

/-- ToolCheck.performCheck, configure.py lines 496-516. -/
def ToolCheck.performCheck (w : World) (t : Target)
    (cb : Option (World → ToolCheck → ToolCheck × Bool)) (st : ToolCheck) :
    ToolCheck × Bool :=
  if st.fDisabled then ({ st with fHave := none }, true)
  else if st.aeTargets.contains t || st.aeTargets.contains Target.any then
    match cb with
    | some f =>
      let r := f w st
      ({ r.1 with fHave := some r.2 }, true)
    | none => toolLoop w st st.asCmd
  else (st, true)

/-- State of a LibraryCheck probe, configure.py lines 191-211. -/
structure LibraryCheck where
  sName : String
  asIncFiles : List String
  asLibFiles : List String
  sCode : String
  aeTargets : List Target
  aeTargetsExcluded : List Target
  asAltIncFiles : List String
  fDisabled : Bool
  sCustomPath : Option String
  sIncPath : Option String
  sLibPath : Option String
  fHave : Option Bool
  sVer : Option String
deriving DecidableEq

/-- Constructor state of LibraryCheck.__init__, configure.py lines 195-211. -/
def LibraryCheck.init (sName : String) (asIncFiles asLibFiles : List String)
    (aeTargets : List Target) (sCode : String) (aeTargetsExcluded : List Target)
    (asAltIncFiles : List String) : LibraryCheck :=
  { sName := sName, asIncFiles := asIncFiles, asLibFiles := asLibFiles,
    sCode := sCode, aeTargets := aeTargets, aeTargetsExcluded := aeTargetsExcluded,
    asAltIncFiles := asAltIncFiles, fDisabled := false, sCustomPath := none,
    sIncPath := none, sLibPath := none, fHave := none, sVer := none }

/-- LibraryCheck.setArgs, configure.py lines 300-305. -/
def LibraryCheck.setArgs (st : LibraryCheck) (fDisabled : Bool)
    (sCustomPath : Option String) : LibraryCheck :=
  { st with fDisabled := fDisabled, sCustomPath := sCustomPath }

/-- Infix test on character lists. -/
def listIsInfix (c : List Char) : List Char → Bool
  | [] => c.isEmpty
  | x :: xs => c.isPrefixOf (x :: xs) || listIsInfix c xs

/-- Python substring containment test (c in h for strings). -/
def pyHasSubstr (c h : String) : Bool := listIsInfix c.data h.data

/-- LibraryCheck.hasCPPHeader, configure.py lines 213-218.  The iterated
collection is the Python expression [self.asIncFiles] + self.asAltIncFiles,
so its first element is the list asIncFiles itself: for it, c in h is an
exact element-membership test, while for the alternate header strings it is
a substring test. -/
def LibraryCheck.hasCPPHeader (st : LibraryCheck) : Bool :=
  let asCPPHdr := ["c++", "iostream", "Qt", "qt", "qglobal.h", "qcoreapplication.h"]
  (!st.asIncFiles.isEmpty && asCPPHdr.any (fun c => st.asIncFiles.contains c))
  || st.asAltIncFiles.any (fun h => !(h == "") && asCPPHdr.any (fun c => pyHasSubstr c h))

/-- LibraryCheck.getLinkerArgs, configure.py lines 220-235: on non-Windows a
lib-prefixed basename is shortened to a plain -lNAME flag and any other
basename gets the exact-name -l:NAME form; on Windows nothing is emitted. -/
def LibraryCheck.getLinkerArgs (t : Target) (st : LibraryCheck) : List String :=
  if st.asLibFiles.isEmpty then []
  else
    st.asLibFiles.filterMap (fun sLibCur =>
      if !(t == Target.windows) then
        some (if strStartsWith sLibCur "lib" then "-l" ++ strDrop sLibCur 3
              else "-l" ++ (":" ++ sLibCur))
      else none)

/-- LibraryCheck.getLinuxGnuTypeFromPlatform, configure.py lines 307-324:
dict lookup over the lower-cased machine identifier, None when unmapped. -/
def getLinuxGnuTypeFromPlatform (machine : String) : Option String :=
  List.lookup (strToLower machine)
    [("x86_64", "x86_64-linux-gnu"), ("amd64", "x86_64-linux-gnu"),
     ("i386", "i386-linux-gnu"), ("i686", "i386-linux-gnu"),
     ("aarch64", "aarch64-linux-gnu"), ("arm64", "aarch64-linux-gnu"),
     ("armv7l", "arm-linux-gnueabihf"), ("armv6l", "arm-linux-gnueabi"),
     ("ppc64le", "powerpc64le-linux-gnu"), ("s390x", "s390x-linux-gnu"),
     ("riscv64", "riscv64-linux-gnu")]

/-- Existing drive letters, configure.py line 336. -/
def windowsDrives (w : World) : List String :=
  ("CDEFGHIJKLMNOPQRSTUVWXYZ".toList).filterMap
    (fun d =>
      let r := String.mk [d] ++ ":"
      if w.pathExists r then some r else none)

/-- Candidate list built by LibraryCheck.getIncSearchPaths before the final
existence filter, configure.py lines 326-350.  `none` models the TypeError
raised at line 345 when the machine identifier is not in the GNU-type table
(string concatenation with None). -/
def getIncSearchPathsRaw (w : World) (t : Target) (machine sp : String)
    (st : LibraryCheck) : Option (List String) :=
  let asPaths :=
    (match st.sCustomPath with
     | some c => [pathJoin c "include"]
     | none => []) ++ [pathJoin sp "src/libs"]
  if t == Target.windows then
    some (asPaths ++
      ((windowsDrives w).map (fun r =>
        (["\\msys64\\mingw64\\include", "\\msys64\\mingw32\\include", "\\include"].map
          (fun p => pathJoin r p))
        ++ ["c:\\\\Program Files", "c:\\\\Program Files (x86)"])).flatten)
  else
    match getLinuxGnuTypeFromPlatform machine with
    | none => none
    | some g =>
      some (asPaths ++
        ["/usr/include", "/usr/local/include",
         "/usr/include/" ++ g, "/usr/local/include/" ++ g,
         "/usr/include/" ++ st.sName, "/usr/local/include/" ++ st.sName,
         "/opt/include", "/opt/local/include"] ++
        (if t == Target.darwin then ["/opt/homebrew/include"] else []))

/-- LibraryCheck.getIncSearchPaths, configure.py lines 326-350: the built
candidates filtered to existing directories. -/
def getIncSearchPaths (w : World) (t : Target) (machine sp : String)
    (st : LibraryCheck) : Option (List String) :=
  (getIncSearchPathsRaw w t machine sp st).map (fun l => l.filter w.pathExists)

/-- Fixed system library directories used on Linux and Solaris,
configure.py lines 372-375. -/
def fixedLinuxLibPaths (g : String) : List String :=
  ["/usr/lib", "/usr/local/lib", "/usr/lib/" ++ g, "/opt/local/lib/" ++ g,
   "/usr/lib64", "/lib", "/lib64", "/opt/lib", "/opt/local/lib"]

/-- Candidate list built by LibraryCheck.getLibSearchPaths before the final
existence filter, configure.py lines 352-378.  On Linux and Solaris the
accumulated list (custom root, vendored source-tree root) is reassigned to
the fixed system list at line 372; `none` models the TypeError at line 373
when the machine identifier is unmapped. -/
def getLibSearchPathsRaw (w : World) (t : Target) (machine sp : String)
    (st : LibraryCheck) : Option (List String) :=
  let asPaths :=
    (match st.sCustomPath with
     | some c => [pathJoin c "lib"]
     | none => []) ++ [pathJoin sp "src/libs"]
  if t == Target.windows then
    some (asPaths ++
      ((windowsDrives w).map (fun r =>
        (["\\msys64\\mingw64\\lib", "\\msys64\\mingw32\\lib", "\\lib"].map
          (fun p => pathJoin r p))
        ++ ["c:\\\\Program Files", "c:\\\\Program Files (x86)"])).flatten)
  else if t == Target.linux || t == Target.solaris then
    match getLinuxGnuTypeFromPlatform machine with
    | none => none
    | some g => some (fixedLinuxLibPaths g)
  else
    some (asPaths ++ ["/opt/homebrew/lib"])

/-- LibraryCheck.getLibSearchPaths, configure.py lines 352-378: the built
candidates filtered to existing directories. -/
def getLibSearchPaths (w : World) (t : Target) (machine sp : String)
    (st : LibraryCheck) : Option (List String) :=
  (getLibSearchPathsRaw w t machine sp st).map (fun l => l.filter w.pathExists)

/-- Header test performed for one directory/header pair in
LibraryCheck.checkInc, configure.py lines 392-401, including the
backslash-separator retry on Windows hosts. -/
def headerHit (w : World) (p h : String) : Bool :=
  w.isFile (pathJoin p h)
  || (w.sepIsBackslash &&
      w.isFile (pathJoin p (String.mk (h.data.map (fun c => if c == '/' then '\\' else c)))))

/-- Directory scan of LibraryCheck.checkInc: first directory containing any
searched header wins. -/
def findIncDir (w : World) (headers : List String) : List String → Option String
  | [] => none
  | p :: ps => if headers.any (fun h => headerHit w p h) then some p else findIncDir w headers ps

/-- LibraryCheck.checkInc, configure.py lines 380-404. -/
def LibraryCheck.checkInc (w : World) (t : Target) (machine sp : String)
    (st : LibraryCheck) : Option (LibraryCheck × Bool) :=
  if st.asIncFiles.isEmpty && st.asAltIncFiles.isEmpty then some (st, true)
  else
    match getIncSearchPaths w t machine sp st with
    | none => none
    | some paths =>
      match findIncDir w (st.asIncFiles ++ st.asAltIncFiles) paths with
      | some p => some ({ st with sIncPath := some p }, true)
      | none => some (st, false)

/-- Python repr of a string as it appears inside the str() of a list:
the text wrapped in single quotation marks (0x27). -/
def pyStrRepr (s : String) : String := "\x27" ++ s ++ "\x27"

/-- Python str() of a list of strings: bracketed, comma-separated reprs.
This is what the f-string at configure.py line 423 interpolates, since
line 412 binds sBasename to the whole list self.asLibFiles. -/
def pyListRepr (xs : List String) : String :=
  "[" ++ String.intercalate ", " (xs.map pyStrRepr) ++ "]"

/-- Membership of a character in the body of an fnmatch bracket expression,
with a-z ranges. -/
def classMatch : List Char → Char → Bool
  | a :: '-' :: b :: rest, c => (a.val ≤ c.val && c.val ≤ b.val) || classMatch rest c
  | a :: rest, c => a == c || classMatch rest c
  | [], _ => false

/-- Scans an fnmatch bracket expression body up to the closing bracket,
returning the body and the remaining pattern; `none` when unclosed. -/
def scanClass : List Char → List Char → Option (List Char × List Char)
  | [], _ => none
  | c :: rest, acc => if c == ']' then some (acc.reverse, rest) else scanClass rest (c :: acc)

/-- Splits an fnmatch bracket expression (the part after the opening
bracket): negation flag, body, remaining pattern.  A closing bracket in
first position is a literal member, as in Python fnmatch. -/
def bracketSplit (cs : List Char) : Option (Bool × List Char × List Char) :=
  let p :=
    match cs with
    | c :: rest => if c == '!' then (true, rest) else (false, cs)
    | [] => (false, ([] : List Char))
  match p.2 with
  | c :: rest =>
    if c == ']' then
      match scanClass rest [']'] with
      | some q => some (p.1, q.1, q.2)
      | none => none
    else
      match scanClass p.2 [] with
      | some q => some (p.1, q.1, q.2)
      | none => none
  | [] => none

/-- Fuel-indexed fnmatch-style pattern matching as used by glob.glob on one
file name: star, question mark, bracket expressions; an unclosed opening
bracket is a literal character.  The fuel passed by globMatch strictly
dominates the recursion depth, every step of which shortens the pattern or
the subject. -/
def globFuel : Nat → List Char → List Char → Bool
  | 0, _, _ => false
  | _ + 1, [], s => s.isEmpty
  | fuel + 1, p :: ps, s =>
    if p == '*' then
      globFuel fuel ps s ||
        (match s with
         | [] => false
         | _ :: s2 => globFuel fuel (p :: ps) s2)
    else if p == '?' then
      (match s with
       | [] => false
       | _ :: s2 => globFuel fuel ps s2)
    else if p == '[' then
      (match bracketSplit ps with
       | some nbr =>
         (match s with
          | [] => false
          | c :: s2 => (classMatch nbr.2.1 c != nbr.1) && globFuel fuel nbr.2.2 s2)
       | none =>
         (match s with
          | [] => false
          | c :: s2 => (c == '[') && globFuel fuel ps s2))
    else
      (match s with
       | [] => false
       | c :: s2 => (c == p) && globFuel fuel ps s2)

/-- fnmatch of one glob pattern against one file name. -/
def globMatch (pat s : String) : Bool :=
  globFuel (2 * (pat.length + s.length) + 2) pat.toList s.toList

/-- Library file extensions per build target, configure.py lines 413-419. -/
def libExts (t : Target) : List String :=
  if t == Target.windows then [".lib", ".dll", ".a", ".dll.a"]
  else if t == Target.darwin then [".a", ".dylib", ".so"]
  else [".a", ".so"]

/-- glob.glob restricted to one directory: the names listed in the directory
that match the pattern, joined back onto the directory. -/
def globInDir (w : World) (dir pat : String) : List String :=
  ((w.listDir dir).filter (fun f => globMatch pat f)).map (fun f => pathJoin dir f)

/-- Extension loop of LibraryCheck.checkLib for one candidate directory. -/
def findLibInExts (w : World) (basename dir : String) : List String → Bool
  | [] => false
  | ext :: rest =>
    if (globInDir w dir (basename ++ "*" ++ ext)).any w.isFile then true
    else findLibInExts w basename dir rest

/-- Directory loop of LibraryCheck.checkLib: the first directory in which
some glob pattern hits an existing file becomes the library root. -/
def findLibDir (w : World) (basename : String) (exts : List String) :
    List String → Option String
  | [] => none
  | p :: ps => if findLibInExts w basename p exts then some p else findLibDir w basename exts ps

/-- LibraryCheck.checkLib, configure.py lines 406-430.  Line 412 binds
sBasename to the whole list self.asLibFiles, so the glob pattern built at
line 423 interpolates the str() of that list. -/
def LibraryCheck.checkLib (w : World) (t : Target) (machine sp : String)
    (st : LibraryCheck) : Option (LibraryCheck × Bool) :=
  if st.asLibFiles.isEmpty then some (st, true)
  else
    match getLibSearchPaths w t machine sp st with
    | none => none
    | some paths =>
      match findLibDir w (pyListRepr st.asLibFiles) (libExts t) paths with
      | some p => some ({ st with sLibPath := some p }, true)
      | none => some (st, false)

/-- LibraryCheck.performCheck, configure.py lines 432-444: exclusion, then
disablement, then applicability; then self.fHave = self.checkInc() and
self.checkLib() with Python short-circuiting. -/
def LibraryCheck.performCheck (w : World) (t : Target) (machine sp : String)
    (st : LibraryCheck) : Option LibraryCheck :=
  if st.aeTargetsExcluded.contains t then some { st with fHave := none }
  else if st.fDisabled then some { st with fHave := none }
  else if st.aeTargets.contains t || st.aeTargets.contains Target.any then
    match LibraryCheck.checkInc w t machine sp st with
    | none => none
    | some r1 =>
      if r1.2 then
        match LibraryCheck.checkLib w t machine sp r1.1 with
        | none => none
        | some r2 => some { r2.1 with fHave := some r2.2 }
      else some { r1.1 with fHave := some false }
  else some st

/-- Path of the compiled test binary, configure.py line 263. -/
def testBinPath (w : World) (d : String) : String :=
  pathJoin d (if w.hostIsWindows then "a.exe" else "a.out")

/-- Path of the generated test source file, configure.py line 262. -/
def testFilePath (d : String) (st : LibraryCheck) : String :=
  pathJoin d (if st.hasCPPHeader then "testlib.cpp" else "testlib.c")

/-- Compiler command line of LibraryCheck.compileAndExecute,
configure.py lines 256-272. -/
def testCompileCmd (w : World) (t : Target) (d : String) (st : LibraryCheck) :
    List String :=
  [(if st.hasCPPHeader then "g++" else "gcc"), testFilePath d st,
   "-I" ++ optStr st.sIncPath, "-L" ++ optStr st.sLibPath, "-o", testBinPath w d]
  ++ LibraryCheck.getLinkerArgs t st

/-- LibraryCheck.compileAndExecute, configure.py lines 252-298: on compile
error or nonzero compile return code the state is left as is; on successful
compilation the binary is executed and only a zero exit stores its stripped
stdout as the version; every failure (including SubprocessError/timeout,
modelled by `none`) only logs and leaves the state untouched. -/
def compileAndExecute (w : World) (t : Target) (d : String) (st : LibraryCheck) :
    LibraryCheck :=
  match w.compileRun (testCompileCmd w t d st) with
  | none => st
  | some r =>
    if r.1 != 0 then st
    else
      match w.execRun (testBinPath w d) with
      | none => st
      | some r2 => if r2.1 == 0 then { st with sVer := some r2.2 } else st

/-- Truth of the verification step failing: compile SubprocessError, nonzero
compile return code, execution SubprocessError/timeout, or nonzero exit of
the test binary. -/
def verifyFails (w : World) (t : Target) (d : String) (st : LibraryCheck) : Bool :=
  match w.compileRun (testCompileCmd w t d st) with
  | none => true
  | some r =>
    if r.1 != 0 then true
    else
      match w.execRun (testBinPath w d) with
      | none => true
      | some r2 => !(r2.1 == 0)

/-- One library iteration of main, configure.py lines 1055-1059:
performCheck, then compileAndExecute only when fHave is truthy. -/
def libCheckStep (w : World) (t : Target) (machine sp d : String)
    (st : LibraryCheck) : Option LibraryCheck :=
  match LibraryCheck.performCheck w t machine sp st with
  | none => none
  | some st1 => some (if st1.fHave == some true then compileAndExecute w t d st1 else st1)

/-- Environment variable store of EnvManager, configure.py lines 589-666,
modelled as an insertion-ordered association list exactly mirroring a
Python dict with string keys. -/
abbrev Env := List (String × String)

/-- Python dict key-membership test. -/
def dictHasKey (e : Env) (k : String) : Bool := e.any (fun p => p.1 == k)

/-- Python dict subscript read with a default (dict.get). -/
def dictGet (e : Env) (k d : String) : String :=
  match e.find? (fun p => p.1 == k) with
  | some p => p.2
  | none => d

/-- Python dict subscript assignment: replacement in place for a present key
(keeping its position), appending otherwise. -/
def dictSet (e : Env) (k v : String) : Env :=
  if dictHasKey e k then e.map (fun p => if p.1 == k then (k, v) else p)
  else e ++ [(k, v)]

/-- Python dict.update with another mapping, given as ordered pairs. -/
def dictUpdate (e : Env) (kvs : List (String × String)) : Env :=
  kvs.foldl (fun a p => dictSet a p.1 p.2) e

/-- Transform rule: a function of the current store returning a partial
override mapping (the lambdas at configure.py lines 1004-1014 always return
dicts, so the isinstance guard at line 665 always passes). -/
abbrev TransformRule := Env → List (String × String)

/-- EnvManager.modify, configure.py lines 618-625: the KeyError raised for an
absent key is modelled by Except.error carrying the message text; it is
raised before any mutation, so no store accompanies it. -/
def EnvManager.modify (e : Env) (k : String) (f : String → String) :
    Except String Env :=
  if dictHasKey e k then Except.ok (dictSet e k (f (dictGet e k "")))
  else Except.error (k ++ " not set in environment")

/-- EnvManager.transform, configure.py lines 659-666: each rule is evaluated
on the current store and its returned mapping merged in before the next rule
runs. -/
def EnvManager.transform (e : Env) (rules : List TransformRule) : Env :=
  rules.foldl (fun acc r => dictUpdate acc (r acc)) e

/-- World in which nothing exists and every subprocess interaction fails. -/
def emptyWorld : World :=
  { pathExists := fun _ => false, isFile := fun _ => false,
    isExecFile := fun _ => false, which := fun _ => none,
    runSwitch := fun _ _ => none, listDir := fun _ => [],
    sepIsBackslash := false, hostIsWindows := false,
    compileRun := fun _ => none, execRun := fun _ => none }

/-! ### Association-list lemmas for the environment store -/

theorem dictFind_none (e : Env) (k : String) (h : dictHasKey e k = false) :
    e.find? (fun p => p.1 == k) = none := by
  induction e with
  | nil => rfl
  | cons p es ih =>
    simp only [dictHasKey, List.any_cons, Bool.or_eq_false_iff] at h
    simp only [List.find?, h.1]
    exact ih h.2

theorem dictFind_map_self (e : Env) (k v : String) (h : dictHasKey e k = true) :
    (e.map (fun p => if p.1 == k then (k, v) else p)).find? (fun p => p.1 == k)
      = some (k, v) := by
  induction e with
  | nil => simp [dictHasKey] at h
  | cons p es ih =>
    cases hp : (p.1 == k) with
    | true => simp [List.find?, hp]
    | false =>
      simp only [dictHasKey, List.any_cons, hp, Bool.false_or] at h
      simp only [List.map_cons, hp, Bool.false_eq_true, if_false, List.find?]
      exact ih h

theorem dictFind_map_ne (e : Env) (k k2 v : String) (hne : k2 ≠ k) :
    (e.map (fun p => if p.1 == k then (k, v) else p)).find? (fun p => p.1 == k2)
      = e.find? (fun p => p.1 == k2) := by
  induction e with
  | nil => rfl
  | cons p es ih =>
    by_cases hp : p.1 = k
    · have h1 : (p.1 == k) = true := by simp [hp]
      have h2 : (p.1 == k2) = false := by
        simp only [hp, beq_eq_false_iff_ne]
        exact fun hc => hne hc.symm
      have h3 : ((k : String) == k2) = false := by
        simp only [beq_eq_false_iff_ne]
        exact fun hc => hne hc.symm
      simp only [List.map_cons, h1, if_true, List.find?, h3, h2]
      exact ih
    · have h1 : (p.1 == k) = false := by simp [hp]
      simp only [List.map_cons, h1, Bool.false_eq_true, if_false, List.find?]
      cases hq : (p.1 == k2) with
      | true => rfl
      | false => exact ih

theorem dictFind_append_single (e : Env) (k k2 v : String) (hne : k2 ≠ k) :
    (e ++ [(k, v)]).find? (fun p => p.1 == k2) = e.find? (fun p => p.1 == k2) := by
  induction e with
  | nil =>
    have h3 : ((k : String) == k2) = false := by
      simp only [beq_eq_false_iff_ne]
      exact fun hc => hne hc.symm
    simp [List.find?, h3]
  | cons p es ih =>
    simp only [List.cons_append, List.find?]
    cases hq : (p.1 == k2) with
    | true => rfl
    | false => exact ih

theorem dictFind_append_self (e : Env) (k v : String) (h : dictHasKey e k = false) :
    (e ++ [(k, v)]).find? (fun p => p.1 == k) = some (k, v) := by
  induction e with
  | nil => simp [List.find?]
  | cons p es ih =>
    simp only [dictHasKey, List.any_cons, Bool.or_eq_false_iff] at h
    simp only [List.cons_append, List.find?, h.1]
    exact ih h.2

theorem dictGet_dictSet_self (e : Env) (k v d : String) :
    dictGet (dictSet e k v) k d = v := by
  cases h : dictHasKey e k with
  | true => simp only [dictSet, h, if_true, dictGet, dictFind_map_self e k v h]
  | false =>
    simp only [dictSet, h, Bool.false_eq_true, if_false, dictGet,
      dictFind_append_self e k v h]

theorem dictGet_dictSet_ne (e : Env) (k k2 v d : String) (h : (k2 == k) = false) :
    dictGet (dictSet e k v) k2 d = dictGet e k2 d := by
  have hne : k2 ≠ k := by simpa [beq_eq_false_iff_ne] using h
  cases hk : dictHasKey e k with
  | true => simp only [dictSet, hk, if_true, dictGet, dictFind_map_ne e k k2 v hne]
  | false =>
    simp only [dictSet, hk, Bool.false_eq_true, if_false, dictGet,
      dictFind_append_single e k k2 v hne]

/-! ### C8: transform pipeline ordering -/

/-- Rule writing the key K, standing for rule A of the claim. -/
def ruleWriteK : TransformRule := fun _ => [("K", "1")]

/-- Rule reading the key K written by ruleWriteK, standing for rule B. -/
def ruleReadK : TransformRule := fun e => [("R", dictGet e "K" "0")]

/-- C8: EnvManager.transform applies its rule list strictly in declared
order, merging each returned partial mapping into the store before the next
rule runs (first conjunct, the cons step of the fold); a later rule observes
an earlier rule's write for every initial store, even one where the key held
a different value (second conjunct); and the result is a function of the
ordered rule list and the initial store alone, so applying the identical
list to the identical initial store again is deterministic and idempotent in
the sense of the specification (third conjunct). -/
theorem C8_transform_sequential :
    (∀ (e : Env) (r : TransformRule) (rs : List TransformRule),
       EnvManager.transform e (r :: rs) = EnvManager.transform (dictUpdate e (r e)) rs)
  ∧ (∀ e : Env,
       dictGet (EnvManager.transform e [ruleWriteK, ruleReadK]) "R" "" = "1")
  ∧ (∀ (rules : List TransformRule) (e1 e2 : Env),
       e1 = e2 → EnvManager.transform e1 rules = EnvManager.transform e2 rules) := by
  refine ⟨fun e r rs => rfl, fun e => ?_, fun rules e1 e2 h => by rw [h]⟩
  have h1 : EnvManager.transform e [ruleWriteK, ruleReadK]
      = dictSet (dictSet e "K" "1") "R" (dictGet (dictSet e "K" "1") "K" "0") := rfl
  rw [h1, dictGet_dictSet_self, dictGet_dictSet_self]

/-- Witness for C8 at concrete inputs: rule B sees the value written by rule
A even though the empty initial store never held K, and a second application
of the identical list to the identical store agrees. -/
theorem C8_witness :
    dictGet (EnvManager.transform [] [ruleWriteK, ruleReadK]) "R" "" = "1"
  ∧ EnvManager.transform [("X", "0")] [ruleWriteK]
      = EnvManager.transform [("X", "0")] [ruleWriteK] :=
  ⟨C8_transform_sequential.2.1 [],
   C8_transform_sequential.2.2 [ruleWriteK] [("X", "0")] [("X", "0")] rfl⟩

/-! ### C9: modify on absent and present keys -/

/-- C9: EnvManager.modify on an absent key fails with the KeyError carrying
the scripts message and yields no store at all (the exception is raised
before any mutation, so the store is untouched); on a present key it
replaces the value with the function applied to the previous value and
leaves every other key unchanged. -/
theorem C9_modify_lookup : ∀ (e : Env) (k : String) (f : String → String),
    (dictHasKey e k = false →
       EnvManager.modify e k f = Except.error (k ++ " not set in environment"))
  ∧ (dictHasKey e k = true →
       ∃ e2, EnvManager.modify e k f = Except.ok e2
         ∧ dictGet e2 k "" = f (dictGet e k "")
         ∧ ∀ k2, (k2 == k) = false → dictGet e2 k2 "" = dictGet e k2 "") := by
  intro e k f
  constructor
  · intro h
    simp [EnvManager.modify, h]
  · intro h
    refine ⟨dictSet e k (f (dictGet e k "")), by simp [EnvManager.modify, h],
      dictGet_dictSet_self e k (f (dictGet e k "")) "",
      fun k2 hk2 => dictGet_dictSet_ne e k k2 (f (dictGet e k "")) "" hk2⟩

/-- Witness for C9 at concrete inputs: modifying the absent key B raises the
lookup error, modifying the present key A applies the function to the old
value and leaves other keys alone. -/
theorem C9_witness :
    EnvManager.modify [("A", "1")] "B" (fun s => s ++ "x")
      = Except.error ("B" ++ " not set in environment")
  ∧ ∃ e2, EnvManager.modify [("A", "1")] "A" (fun s => s ++ "x") = Except.ok e2
      ∧ dictGet e2 "A" "" = (fun s => s ++ "x") (dictGet [("A", "1")] "A" "")
      ∧ ∀ k2, (k2 == "A") = false → dictGet e2 k2 "" = dictGet [("A", "1")] k2 "" :=
  ⟨(C9_modify_lookup [("A", "1")] "B" (fun s => s ++ "x")).1 (by decide),
   (C9_modify_lookup [("A", "1")] "A" (fun s => s ++ "x")).2 (by decide)⟩

/-! ### Tool probe lemmas -/

theorem tryVersion_pair (w : World) (p : String) (l : List String)
    (h : (tryVersionSwitches w p l).1 = none) : (tryVersionSwitches w p l).2 = none := by
  induction l with
  | nil => simp [tryVersionSwitches] at h
  | cons sw rest ih =>
    simp only [tryVersionSwitches] at h ⊢
    cases hr : w.runSwitch p sw with
    | none => simp [hr]
    | some r =>
      simp only [hr] at h ⊢
      cases h0 : (r.1 == 0) with
      | true => simp [h0] at h
      | false =>
        simp only [h0, Bool.false_eq_true, if_false] at h ⊢
        exact ih h

theorem checkWhich_pair (w : World) (c : String) (cp : Option String)
    (h : (checkWhich w c cp).1 = none) : (checkWhich w c cp).2 = none := by
  unfold checkWhich at h ⊢
  cases cp with
  | some root =>
    cases he : w.isExecFile (pathJoin root c) with
    | true =>
      simp only [he, if_true] at h ⊢
      exact tryVersion_pair w (pathJoin root c) asSwitches h
    | false => simp [he]
  | none =>
    cases hw : w.which c with
    | some p =>
      simp only [hw] at h ⊢
      exact tryVersion_pair w p asSwitches h
    | none => simp [hw]

theorem toolLoop_fHave_true (w : World) (cs : List String) (st : ToolCheck)
    (h : st.fHave = some true) : ((toolLoop w st cs).1).fHave = some true := by
  induction cs generalizing st with
  | nil => simpa [toolLoop] using h
  | cons c cs ih =>
    simp only [toolLoop]
    cases hp : (checkWhich w c st.sCustomPath).1 with
    | some p =>
      simp only [hp]
      exact ih _ rfl
    | none =>
      simp only [hp]
      exact h

theorem toolLoop_path_ver (w : World) (cs : List String) (st : ToolCheck)
    (h1 : st.sCmdPath.isSome = true → st.fHave = some true)
    (h2 : st.sVer.isSome = true → st.fHave = some true) :
    (((toolLoop w st cs).1).sCmdPath.isSome = true
        → ((toolLoop w st cs).1).fHave = some true)
    ∧ (((toolLoop w st cs).1).sVer.isSome = true
        → ((toolLoop w st cs).1).fHave = some true) := by
  induction cs generalizing st with
  | nil => exact ⟨h1, h2⟩
  | cons c cs ih =>
    simp only [toolLoop]
    cases hp : (checkWhich w c st.sCustomPath).1 with
    | some p =>
      simp only [hp]
      exact ih _ (fun _ => rfl) (fun _ => rfl)
    | none =>
      have hv := checkWhich_pair w c st.sCustomPath hp
      simp only [hp, hv]
      exact ⟨fun hc => by simp at hc, fun hc => by simp at hc⟩

/-! ### C1: tool candidate resolution -/

/-- World for the C1 counterexample: the first candidate is absent from PATH
while the second is present and answers version queries. -/
def wC1x : World :=
  { emptyWorld with
    which := fun s => if s == "b" then some "/bin/b" else none,
    runSwitch := fun _ _ => some (0, "v1") }

/-- Tool probe with two candidate binaries, of which only the second
resolves in wC1x. -/
def stC1x : ToolCheck := ToolCheck.init "demo" ["a", "b"] [Target.any]

/-- Counterexample to C1 as stated: candidate b is in the list and resolves
via executable lookup, yet performCheck leaves fHave at None (not Found),
because the loop aborts at the first failing candidate a. -/
theorem C1_counterexample :
    ("b" ∈ stC1x.asCmd)
  ∧ ((checkWhich wC1x "b" stC1x.sCustomPath).1.isSome = true)
  ∧ ((ToolCheck.performCheck wC1x Target.linux none stC1x).1.fHave = none) :=
  ⟨by decide, by decide, by decide⟩

/-- C1 amended: for an enabled, applicable tool probe without a custom
callback and with a non-empty candidate list, Status ends Found exactly when
the first candidate resolves via checkWhich (the loop never reaches a
candidate behind a failed one, and a failure behind a success leaves Found
set); and when a custom search root is supplied and the binary is not an
executable file there, checkWhich fails immediately with no fallback to the
general search path. -/
theorem C1_first_candidate_and_custom_root :
    ∀ (w : World) (t : Target) (st : ToolCheck) (c : String) (cs : List String),
    st.fDisabled = false →
    (st.aeTargets.contains t || st.aeTargets.contains Target.any) = true →
    st.fHave = none →
    st.asCmd = c :: cs →
    (((ToolCheck.performCheck w t none st).1.fHave = some true)
       ↔ ((checkWhich w c st.sCustomPath).1.isSome = true))
    ∧ (∀ cmd root : String, w.isExecFile (pathJoin root cmd) = false →
         checkWhich w cmd (some root) = (none, none)) := by
  intro w t st c cs hd ha hh hcmd
  constructor
  · unfold ToolCheck.performCheck
    simp only [hd, Bool.false_eq_true, if_false, ha, if_true, hcmd]
    simp only [toolLoop]
    cases hp : (checkWhich w c st.sCustomPath).1 with
    | some p =>
      simp only [hp]
      constructor
      · intro _; simp
      · intro _; exact toolLoop_fHave_true w cs _ rfl
    | none =>
      simp only [hp]
      simp [hh]
  · intro cmd root hroot
    unfold checkWhich
    simp [hroot]

/-- World for the C1 witness: the single candidate kmk is on PATH. -/
def wC1w : World :=
  { emptyWorld with
    which := fun s => if s == "kmk" then some "/usr/bin/kmk" else none,
    runSwitch := fun _ _ => some (0, "kmk 0.1") }

/-- Tool probe for the C1 witness. -/
def stC1w : ToolCheck := ToolCheck.init "kbuild" ["kmk"] [Target.any]

/-- Witness for C1 amended: a resolving first candidate yields Found, and a
custom root without the binary fails with no fallback. -/
theorem C1_witness :
    (ToolCheck.performCheck wC1w Target.linux none stC1w).1.fHave = some true
  ∧ checkWhich wC1w "wcl" (some "/opt/watcom") = (none, none) :=
  ⟨((C1_first_candidate_and_custom_root wC1w Target.linux stC1w "kmk" [] rfl (by decide)
      rfl rfl).1).mpr (by decide),
   (C1_first_candidate_and_custom_root wC1w Target.linux stC1w "kmk" [] rfl (by decide)
      rfl rfl).2 "wcl" "/opt/watcom" (by decide)⟩

/-! ### C5: inapplicable, excluded or disabled probes stay NotChecked -/

/-- C5: for a freshly constructed probe whose target is excluded, or that is
disabled, or whose applicability set matches neither the build target nor
the Any wildcard, performCheck returns the state unchanged with fHave still
None (NotChecked, never NotFound).  The conclusion holds for every World w,
so the result is independent of the filesystem: no filesystem access can
influence it, regardless of whether the evidence exists on disk.  The same
holds for tool probes (which have no exclusion set), for any callback. -/
theorem C5_inapplicable_not_checked :
    ∀ (w : World) (t : Target) (machine sp : String) (st : LibraryCheck)
      (ts : ToolCheck) (cb : Option (World → ToolCheck → ToolCheck × Bool)),
    ((st.aeTargetsExcluded.contains t = true ∨ st.fDisabled = true
        ∨ (st.aeTargets.contains t || st.aeTargets.contains Target.any) = false) →
      st.fHave = none →
      LibraryCheck.performCheck w t machine sp st = some st)
    ∧ ((ts.fDisabled = true
        ∨ (ts.aeTargets.contains t || ts.aeTargets.contains Target.any) = false) →
      ts.fHave = none →
      ToolCheck.performCheck w t cb ts = (ts, true)) := by
  intro w t machine sp st ts cb
  constructor
  · intro hcond hnone
    have hst : { st with fHave := none } = st := by
      cases st
      simp_all
    by_cases hx : st.aeTargetsExcluded.contains t = true
    · unfold LibraryCheck.performCheck
      rw [if_pos hx, hst]
    · by_cases hdis : st.fDisabled = true
      · unfold LibraryCheck.performCheck
        rw [if_neg hx, if_pos hdis, hst]
      · have happ : ¬ (st.aeTargets.contains t || st.aeTargets.contains Target.any) = true := by
          rcases hcond with h | h | h
          · exact absurd h hx
          · exact absurd h hdis
          · exact fun hc => Bool.false_ne_true (h.symm.trans hc)
        unfold LibraryCheck.performCheck
        rw [if_neg hx, if_neg hdis, if_neg happ]
  · intro hcond hnone
    have hts : { ts with fHave := none } = ts := by
      cases ts
      simp_all
    by_cases hdis : ts.fDisabled = true
    · unfold ToolCheck.performCheck
      rw [if_pos hdis, hts]
    · have happ : ¬ (ts.aeTargets.contains t || ts.aeTargets.contains Target.any) = true := by
        rcases hcond with h | h
        · exact absurd h hdis
        · exact fun hc => Bool.false_ne_true (h.symm.trans hc)
      unfold ToolCheck.performCheck
      rw [if_neg hdis, if_neg happ]

/-- World for the C5 witness in which all evidence exists: every path and
file exists, every binary is on PATH, version queries succeed and a library
file is listed in every directory.  The probes below must still end
NotChecked. -/
def wC5 : World :=
  { pathExists := fun _ => true, isFile := fun _ => true,
    isExecFile := fun _ => true, which := fun _ => some "/usr/bin/tool",
    runSwitch := fun _ _ => some (0, "v"), listDir := fun _ => ["libz.so"],
    sepIsBackslash := false, hostIsWindows := false,
    compileRun := fun _ => some (0, ""), execRun := fun _ => some (0, "1") }

/-- Disabled library probe for the C5 witness. -/
def stC5L : LibraryCheck :=
  (LibraryCheck.init "zlib1g" ["zlib.h"] ["libz"] [Target.any] "int main;" [] []).setArgs
    true none

/-- Tool probe for the C5 witness, disabled and also inapplicable on the
target used below. -/
def tsC5 : ToolCheck := (ToolCheck.init "yasm" ["yasm"] [Target.linux]).setArgs true none

/-- Witness for C5: in a world where all evidence exists, the disabled
library probe and the disabled tool probe are returned unchanged with fHave
still None. -/
theorem C5_witness :
    LibraryCheck.performCheck wC5 Target.linux "x86_64" "/vbox" stC5L = some stC5L
  ∧ ToolCheck.performCheck wC5 Target.linux none tsC5 = (tsC5, true) :=
  ⟨(C5_inapplicable_not_checked wC5 Target.linux "x86_64" "/vbox" stC5L tsC5 none).1
      (Or.inr (Or.inl rfl)) rfl,
   (C5_inapplicable_not_checked wC5 Target.linux "x86_64" "/vbox" stC5L tsC5 none).2
      (Or.inl rfl) rfl⟩

/-! ### Library probe lemmas -/

theorem checkInc_some (w : World) (t : Target) (machine sp : String)
    (st st1 : LibraryCheck) (b : Bool)
    (h : LibraryCheck.checkInc w t machine sp st = some (st1, b)) :
    st1.sLibPath = st.sLibPath ∧ st1.sVer = st.sVer ∧ st1.fHave = st.fHave := by
  unfold LibraryCheck.checkInc at h
  split at h
  · simp only [Option.some.injEq, Prod.mk.injEq] at h
    obtain ⟨h1, h2⟩ := h
    subst h1
    exact ⟨rfl, rfl, rfl⟩
  · split at h
    · exact absurd h (by simp)
    · split at h
      · simp only [Option.some.injEq, Prod.mk.injEq] at h
        obtain ⟨h1, h2⟩ := h
        subst h1
        exact ⟨rfl, rfl, rfl⟩
      · simp only [Option.some.injEq, Prod.mk.injEq] at h
        obtain ⟨h1, h2⟩ := h
        subst h1
        exact ⟨rfl, rfl, rfl⟩

theorem checkLib_some (w : World) (t : Target) (machine sp : String)
    (st st2 : LibraryCheck) (b : Bool)
    (h : LibraryCheck.checkLib w t machine sp st = some (st2, b)) :
    st2.sVer = st.sVer ∧ st2.fHave = st.fHave
      ∧ (st.sLibPath = none → st2.sLibPath.isSome = true → b = true) := by
  unfold LibraryCheck.checkLib at h
  split at h
  · simp only [Option.some.injEq, Prod.mk.injEq] at h
    obtain ⟨h1, h2⟩ := h
    subst h1
    exact ⟨rfl, rfl, fun _ _ => h2.symm⟩
  · split at h
    · exact absurd h (by simp)
    · split at h
      · simp only [Option.some.injEq, Prod.mk.injEq] at h
        obtain ⟨h1, h2⟩ := h
        subst h1
        exact ⟨rfl, rfl, fun _ _ => h2.symm⟩
      · simp only [Option.some.injEq, Prod.mk.injEq] at h
        obtain ⟨h1, h2⟩ := h
        subst h1
        refine ⟨rfl, rfl, fun hn hs => ?_⟩
        rw [hn] at hs
        simp at hs

theorem performCheck_inv (w : World) (t : Target) (machine sp : String)
    (st st' : LibraryCheck) (hL : st.sLibPath = none) (hV : st.sVer = none)
    (h : LibraryCheck.performCheck w t machine sp st = some st') :
    st'.sVer = none ∧ (st'.sLibPath.isSome = true → st'.fHave = some true) := by
  unfold LibraryCheck.performCheck at h
  split at h
  · simp only [Option.some.injEq] at h
    subst h
    exact ⟨hV, fun hs => absurd hs (by simp [hL])⟩
  · split at h
    · simp only [Option.some.injEq] at h
      subst h
      exact ⟨hV, fun hs => absurd hs (by simp [hL])⟩
    · split at h
      · split at h
        · exact absurd h (by simp)
        · rename_i r1 heqI
          obtain ⟨i1, i2, i3⟩ := checkInc_some w t machine sp st r1.1 r1.2 (by rw [heqI])
          split at h
          · split at h
            · exact absurd h (by simp)
            · rename_i r2 heqL
              obtain ⟨l1, l2, l3⟩ := checkLib_some w t machine sp r1.1 r2.1 r2.2 (by rw [heqL])
              simp only [Option.some.injEq] at h
              subst h
              constructor
              · show r2.1.sVer = none
                rw [l1, i2, hV]
              · intro hs
                have hb := l3 (by rw [i1, hL]) hs
                show some r2.2 = some true
                rw [hb]
          · simp only [Option.some.injEq] at h
            subst h
            constructor
            · show r1.1.sVer = none
              rw [i2, hV]
            · intro hs
              have hrl : r1.1.sLibPath = none := by rw [i1, hL]
              exact absurd hs (by simp [show ({ r1.1 with fHave := some false } :
                LibraryCheck).sLibPath = r1.1.sLibPath from rfl, hrl])
      · simp only [Option.some.injEq] at h
        subst h
        exact ⟨hV, fun hs => absurd hs (by simp [hL])⟩

theorem compileAndExecute_frame (w : World) (t : Target) (d : String)
    (st : LibraryCheck) :
    (compileAndExecute w t d st).fHave = st.fHave
    ∧ (compileAndExecute w t d st).sLibPath = st.sLibPath := by
  unfold compileAndExecute
  split
  · exact ⟨rfl, rfl⟩
  · split
    · exact ⟨rfl, rfl⟩
    · split
      · exact ⟨rfl, rfl⟩
      · split
        · exact ⟨rfl, rfl⟩
        · exact ⟨rfl, rfl⟩

/-! ### C2: discovered paths and version defined only when Found -/

/-- World for the C2 counterexample: the zlib header exists under
/usr/include but no library file exists anywhere. -/
def wC2x : World :=
  { emptyWorld with
    pathExists := fun s => s == "/usr/include" || s == "/usr/lib",
    isFile := fun s => s == "/usr/include/zlib.h" }

/-- Library probe for the C2 counterexample. -/
def stC2x : LibraryCheck :=
  LibraryCheck.init "zlib1g" ["zlib.h"] ["libz"] [Target.any] "int main;" [] []

/-- Counterexample to C2 as stated: the probe ends with Status NotFound
(fHave = some false), yet its include root has been recorded as
/usr/include, so a discovered path is defined while Status is not Found. -/
theorem C2_counterexample :
    (LibraryCheck.performCheck wC2x Target.linux "x86_64" "/vbox" stC2x).map
        (fun r => (r.fHave, r.sIncPath))
      = some (some false, some "/usr/include") := by decide

/-- C2 amended: after one full library pipeline step from a freshly
constructed probe, the library root and version are defined only when
Status = Found, and for a tool probe without a custom callback the command
path and version are defined only when Status = Found; the include root of
a library probe, however, may be recorded even when the probe ends
NotFound. -/
theorem C2_paths_version_only_when_found :
    ∀ (w : World) (t : Target) (machine sp d : String) (st r : LibraryCheck)
      (tw : World) (tt : Target) (ts : ToolCheck),
    (st.sLibPath = none → st.sVer = none → libCheckStep w t machine sp d st = some r →
      ((r.sLibPath.isSome = true → r.fHave = some true)
        ∧ (r.sVer.isSome = true → r.fHave = some true)))
    ∧ (ts.sCmdPath = none → ts.sVer = none →
      (((ToolCheck.performCheck tw tt none ts).1.sCmdPath.isSome = true
          → (ToolCheck.performCheck tw tt none ts).1.fHave = some true)
        ∧ ((ToolCheck.performCheck tw tt none ts).1.sVer.isSome = true
          → (ToolCheck.performCheck tw tt none ts).1.fHave = some true))) := by
  intro w t machine sp d st r tw tt ts
  constructor
  · intro hL hV hstep
    unfold libCheckStep at hstep
    cases hP : LibraryCheck.performCheck w t machine sp st with
    | none => rw [hP] at hstep; exact absurd hstep (by simp)
    | some st1 =>
      rw [hP] at hstep
      obtain ⟨hv1, hlp1⟩ := performCheck_inv w t machine sp st st1 hL hV hP
      simp only [Option.some.injEq] at hstep
      by_cases hf : (st1.fHave == some true) = true
      · rw [if_pos hf] at hstep
        subst hstep
        have hfr := (compileAndExecute_frame w t d st1).1
        have hft : st1.fHave = some true := by simpa using hf
        rw [hfr, hft]
        exact ⟨fun _ => rfl, fun _ => rfl⟩
      · rw [if_neg hf] at hstep
        subst hstep
        exact ⟨hlp1, fun hs => absurd hs (by simp [hv1])⟩
  · intro hcp hver
    unfold ToolCheck.performCheck
    by_cases hdis : ts.fDisabled = true
    · rw [if_pos hdis]
      constructor
      · intro hs
        exact absurd hs (by simp [show ({ ts with fHave := none } :
          ToolCheck).sCmdPath = ts.sCmdPath from rfl, hcp])
      · intro hs
        exact absurd hs (by simp [show ({ ts with fHave := none } :
          ToolCheck).sVer = ts.sVer from rfl, hver])
    · by_cases happ : (ts.aeTargets.contains tt || ts.aeTargets.contains Target.any) = true
      · rw [if_neg hdis, if_pos happ]
        exact toolLoop_path_ver tw ts.asCmd ts
          (fun hs => absurd hs (by simp [hcp])) (fun hs => absurd hs (by simp [hver]))
      · rw [if_neg hdis, if_neg happ]
        exact ⟨fun hs => absurd hs (by simp [hcp]), fun hs => absurd hs (by simp [hver])⟩

/-- World for the C2 witness: header and library exist and the test program
compiles and runs. -/
def wC2w : World :=
  { emptyWorld with
    pathExists := fun s => s == "/usr/include" || s == "/usr/lib",
    isFile := fun s => s == "/usr/include/zlib.h" || s == "/usr/lib/libz.so",
    listDir := fun s => if s == "/usr/lib" then ["libz.so"] else [],
    compileRun := fun _ => some (0, ""),
    execRun := fun _ => some (0, "1.3.1") }

/-- Library probe for the C2 witness. -/
def stC2w : LibraryCheck :=
  LibraryCheck.init "zlib1g" ["zlib.h"] ["libz"] [Target.any] "int main;" [] []

/-- Resulting probe state of the C2 witness pipeline step. -/
def rC2w : LibraryCheck :=
  { stC2w with
    sIncPath := some "/usr/include", sLibPath := some "/usr/lib",
    fHave := some true, sVer := some "1.3.1" }

/-- Witness for C2 amended: in a world where the probe succeeds fully, the
recorded library root entails Status = Found. -/
theorem C2_witness : rC2w.fHave = some true :=
  ((C2_paths_version_only_when_found wC2w Target.linux "x86_64" "/vbox" "/tmp"
      stC2w rC2w emptyWorld Target.linux (ToolCheck.init "x" [] [])).1
    rfl rfl (by decide)).1 (by decide)

/-! ### C6: verification failure never reverts Found -/

/-- C6: for a library probe at Status = Found with no version yet, any
failure of the compile-and-execute verification step (compile error or
nonzero compile return code, execution error or timeout, nonzero test-binary
exit) leaves the probe state completely unchanged: the Version stays unset
and the Status stays Found. -/
theorem C6_verification_failure_keeps_found :
    ∀ (w : World) (t : Target) (d : String) (st : LibraryCheck),
    st.fHave = some true → st.sVer = none → verifyFails w t d st = true →
    compileAndExecute w t d st = st
    ∧ (compileAndExecute w t d st).fHave = some true
    ∧ (compileAndExecute w t d st).sVer = none := by
  intro w t d st hf hv hfail
  have hmain : compileAndExecute w t d st = st := by
    unfold compileAndExecute
    unfold verifyFails at hfail
    cases hc : w.compileRun (testCompileCmd w t d st) with
    | none => simp only [hc]
    | some r =>
      simp only [hc] at hfail
      simp only [hc]
      by_cases h0 : (r.1 != 0) = true
      · rw [if_pos h0]
      · rw [if_neg h0] at hfail
        rw [if_neg h0]
        cases he : w.execRun (testBinPath w d) with
        | none => simp only [he]
        | some r2 =>
          simp only [he] at hfail
          simp only [he]
          by_cases h2 : (r2.1 == 0) = true
          · simp [h2] at hfail
          · rw [if_neg h2]
  exact ⟨hmain, by rw [hmain, hf], by rw [hmain, hv]⟩

/-- World for the C6 witness: compilation fails with return code 1. -/
def wC6 : World :=
  { emptyWorld with compileRun := fun _ => some (1, "error: link failed") }

/-- Found library probe for the C6 witness. -/
def stC6 : LibraryCheck :=
  { LibraryCheck.init "zlib1g" ["zlib.h"] ["libz"] [Target.any] "int main;" [] [] with
    sIncPath := some "/usr/include", sLibPath := some "/usr/lib", fHave := some true }

/-- Witness for C6 at a concrete compile failure. -/
theorem C6_witness :
    compileAndExecute wC6 Target.linux "/tmp" stC6 = stC6
    ∧ (compileAndExecute wC6 Target.linux "/tmp" stC6).fHave = some true
    ∧ (compileAndExecute wC6 Target.linux "/tmp" stC6).sVer = none :=
  C6_verification_failure_keeps_found wC6 Target.linux "/tmp" stC6 rfl rfl (by decide)

/-! ### C7: linker argument synthesis -/

/-- C7: getLinkerArgs on the basename list [libfoo, bar] yields exactly
[-lfoo, -l:bar] on every non-Windows target (the lib prefix stripped into a
standard link flag, and the exact-filename-preserving -l: form for bar), and
the empty list on Windows. -/
theorem C7_linker_args :
    ∀ (t : Target) (st st2 : LibraryCheck),
    (t == Target.windows) = false →
    st.asLibFiles = ["libfoo", "bar"] →
    st2.asLibFiles = ["libfoo", "bar"] →
    LibraryCheck.getLinkerArgs t st = ["-lfoo", "-l:bar"]
    ∧ LibraryCheck.getLinkerArgs Target.windows st2 = [] := by
  intro t st st2 hnw h1 h2
  constructor
  · unfold LibraryCheck.getLinkerArgs
    rw [h1]
    simp only [hnw]
    decide
  · unfold LibraryCheck.getLinkerArgs
    rw [h2]
    decide

/-- Library probe for the C7 witness. -/
def stC7 : LibraryCheck :=
  LibraryCheck.init "demo7" [] ["libfoo", "bar"] [Target.any] "" [] []

/-- Witness for C7 at the concrete target Linux. -/
theorem C7_witness :
    LibraryCheck.getLinkerArgs Target.linux stC7 = ["-lfoo", "-l:bar"]
    ∧ LibraryCheck.getLinkerArgs Target.windows stC7 = [] :=
  C7_linker_args Target.linux stC7 stC7 (by decide) rfl rfl

/-! ### C10: unmapped machine identifier crashes the search -/

/-- C10: when the machine identifier is absent from the GNU-triplet table
(getLinuxGnuTypeFromPlatform yields None), getIncSearchPaths raises the
TypeError (modelled as None) on every non-Windows target, getLibSearchPaths
raises it on Linux and Solaris, and performCheck of an applicable, enabled
library probe with headers to search propagates the exception instead of
returning a NotFound state. -/
theorem C10_unmapped_machine_crashes :
    ∀ (w : World) (t : Target) (machine sp : String) (st : LibraryCheck),
    getLinuxGnuTypeFromPlatform machine = none →
    ((t == Target.windows) = false → getIncSearchPaths w t machine sp st = none)
    ∧ (((t == Target.linux) = true ∨ (t == Target.solaris) = true) →
        getLibSearchPaths w t machine sp st = none)
    ∧ ((t == Target.windows) = false →
        st.aeTargetsExcluded.contains t = false →
        st.fDisabled = false →
        (st.aeTargets.contains t || st.aeTargets.contains Target.any) = true →
        st.asIncFiles.isEmpty = false →
        LibraryCheck.performCheck w t machine sp st = none) := by
  intro w t machine sp st hg
  have hinc : (t == Target.windows) = false →
      getIncSearchPathsRaw w t machine sp st = none := by
    intro hw
    unfold getIncSearchPathsRaw
    rw [if_neg (by simp [hw])]
    simp only [hg]
  refine ⟨?_, ?_, ?_⟩
  · intro hw
    unfold getIncSearchPaths
    rw [hinc hw]
    rfl
  · intro hts
    have hw : (t == Target.windows) = false := by
      rcases hts with h | h
      · have ht : t = Target.linux := by simpa using h
        subst ht; decide
      · have ht : t = Target.solaris := by simpa using h
        subst ht; decide
    unfold getLibSearchPaths getLibSearchPathsRaw
    rw [if_neg (by simp [hw]), if_pos (by rcases hts with h | h <;> simp [h])]
    simp only [hg]
    rfl
  · intro hw hex hdis happ hinc0
    unfold LibraryCheck.performCheck
    rw [if_neg (fun hc => Bool.false_ne_true (hex.symm.trans hc)),
      if_neg (fun hc => Bool.false_ne_true (hdis.symm.trans hc)), if_pos happ]
    have hci : LibraryCheck.checkInc w t machine sp st = none := by
      unfold LibraryCheck.checkInc
      rw [if_neg (by simp [hinc0])]
      unfold getIncSearchPaths
      rw [hinc hw]
      rfl
    rw [hci]

/-- Library probe for the C10 witness. -/
def stC10 : LibraryCheck :=
  LibraryCheck.init "zlib1g" ["zlib.h"] ["libz"] [Target.any] "int main;" [] []

/-- Witness for C10 at the concrete unmapped machine identifier ppc64 on
Linux. -/
theorem C10_witness :
    getIncSearchPaths emptyWorld Target.linux "ppc64" "/vbox" stC10 = none
  ∧ getLibSearchPaths emptyWorld Target.linux "ppc64" "/vbox" stC10 = none
  ∧ LibraryCheck.performCheck emptyWorld Target.linux "ppc64" "/vbox" stC10 = none :=
  ⟨(C10_unmapped_machine_crashes emptyWorld Target.linux "ppc64" "/vbox" stC10
      (by decide)).1 (by decide),
   (C10_unmapped_machine_crashes emptyWorld Target.linux "ppc64" "/vbox" stC10
      (by decide)).2.1 (Or.inl (by decide)),
   (C10_unmapped_machine_crashes emptyWorld Target.linux "ppc64" "/vbox" stC10
      (by decide)).2.2 (by decide) (by decide) (by decide) (by decide) (by decide)⟩

/-! ### C3: search path roots -/

/-- Library probe with a custom root for C3. -/
def stC3 : LibraryCheck :=
  { LibraryCheck.init "zlib1g" ["zlib.h"] ["libz"] [Target.any] "int main;" [] [] with
    sCustomPath := some "/c" }

/-- Counterexample to C3 as stated: on Linux the library candidate list is
the fixed system list; it does not begin with the custom root /c/lib (nor
with the vendored root), which is absent from it entirely, because
getLibSearchPaths reassigns the accumulated list on Linux/Solaris. -/
theorem C3_counterexample :
    stC3.sCustomPath = some "/c"
  ∧ pathJoin "/c" "lib" = "/c/lib"
  ∧ getLibSearchPathsRaw emptyWorld Target.linux "x86_64" "/vbox" stC3
      = some ["/usr/lib", "/usr/local/lib", "/usr/lib/x86_64-linux-gnu",
              "/opt/local/lib/x86_64-linux-gnu", "/usr/lib64", "/lib", "/lib64",
              "/opt/lib", "/opt/local/lib"]
  ∧ "/c/lib" ∉ ["/usr/lib", "/usr/local/lib", "/usr/lib/x86_64-linux-gnu",
              "/opt/local/lib/x86_64-linux-gnu", "/usr/lib64", "/lib", "/lib64",
              "/opt/lib", "/opt/local/lib"] := by decide

/-- C3 amended: with a custom root supplied, the include candidate list
begins with the custom include root followed by the vendored source-tree
root on every target; the library candidate list does so exactly on the
targets other than Linux and Solaris (Windows, Darwin, BSD, Haiku); on
Linux and Solaris the library candidate list is instead the fixed system
directory list derived from the machine identifier, dropping both the
custom root and the vendored root. -/
theorem C3_search_path_roots :
    ∀ (w : World) (t : Target) (machine sp c : String) (st : LibraryCheck),
    st.sCustomPath = some c →
    (∀ l, getIncSearchPathsRaw w t machine sp st = some l →
       l.take 2 = [pathJoin c "include", pathJoin sp "src/libs"])
    ∧ ((t == Target.linux || t == Target.solaris) = false →
       ∀ l, getLibSearchPathsRaw w t machine sp st = some l →
         l.take 2 = [pathJoin c "lib", pathJoin sp "src/libs"])
    ∧ ((t == Target.linux || t == Target.solaris) = true →
       getLibSearchPathsRaw w t machine sp st
         = (getLinuxGnuTypeFromPlatform machine).map fixedLinuxLibPaths) := by
  intro w t machine sp c st hc
  refine ⟨?_, ?_, ?_⟩
  · intro l hl
    unfold getIncSearchPathsRaw at hl
    rw [hc] at hl
    by_cases hw : (t == Target.windows) = true
    · rw [if_pos hw] at hl
      simp only [Option.some.injEq] at hl
      subst hl
      rfl
    · rw [if_neg hw] at hl
      cases hg : getLinuxGnuTypeFromPlatform machine with
      | none => rw [hg] at hl; exact absurd hl (by simp)
      | some g =>
        rw [hg] at hl
        simp only [Option.some.injEq] at hl
        subst hl
        rfl
  · intro hnl l hl
    unfold getLibSearchPathsRaw at hl
    rw [hc] at hl
    by_cases hw : (t == Target.windows) = true
    · rw [if_pos hw] at hl
      simp only [Option.some.injEq] at hl
      subst hl
      rfl
    · rw [if_neg hw,
        if_neg (fun hc2 => Bool.false_ne_true (hnl.symm.trans hc2))] at hl
      simp only [Option.some.injEq] at hl
      subst hl
      rfl
  · intro hyl
    have hw : (t == Target.windows) = false := by
      have ht : t = Target.linux ∨ t = Target.solaris := by simpa using hyl
      rcases ht with ht | ht <;> subst ht <;> decide
    unfold getLibSearchPathsRaw
    rw [if_neg (fun hc2 => Bool.false_ne_true (hw.symm.trans hc2)), if_pos hyl]
    cases hg : getLinuxGnuTypeFromPlatform machine with
    | none => simp [hg]
    | some g => simp [hg]

/-- Witness for C3 amended at concrete inputs: the include candidates on
Linux begin with the custom and the vendored roots, and the library
candidates on Linux are exactly the fixed system list for the machine
x86_64. -/
theorem C3_witness :
    (List.take 2 ["/c/include", "/vbox/src/libs", "/usr/include",
        "/usr/local/include", "/usr/include/x86_64-linux-gnu",
        "/usr/local/include/x86_64-linux-gnu", "/usr/include/zlib1g",
        "/usr/local/include/zlib1g", "/opt/include", "/opt/local/include"])
      = [pathJoin "/c" "include", pathJoin "/vbox" "src/libs"]
  ∧ getLibSearchPathsRaw emptyWorld Target.linux "x86_64" "/vbox" stC3
      = (getLinuxGnuTypeFromPlatform "x86_64").map fixedLinuxLibPaths :=
  ⟨(C3_search_path_roots emptyWorld Target.linux "x86_64" "/vbox" "/c" stC3 rfl).1
      ["/c/include", "/vbox/src/libs", "/usr/include", "/usr/local/include",
       "/usr/include/x86_64-linux-gnu", "/usr/local/include/x86_64-linux-gnu",
       "/usr/include/zlib1g", "/usr/local/include/zlib1g", "/opt/include",
       "/opt/local/include"] (by decide),
   (C3_search_path_roots emptyWorld Target.linux "x86_64" "/vbox" "/c" stC3 rfl).2.2
      (by decide)⟩

/-! ### C4: library glob pattern built from the list repr -/

/-- World for C4: the only existing library directory /usr/lib contains
exactly one file, libpng.so, which does not belong to the probed library. -/
def wC4 : World :=
  { emptyWorld with
    pathExists := fun s => s == "/usr/lib",
    isFile := fun s => s == "/usr/lib/libpng.so",
    listDir := fun s => if s == "/usr/lib" then ["libpng.so"] else [] }

/-- Library probe for C4, looking for libz. -/
def stC4 : LibraryCheck :=
  LibraryCheck.init "zlib1g" ["zlib.h"] ["libz"] [Target.any] "int main;" [] []

/-- C4 (code bug, configure.py line 412/423): checkLib formats the whole
Python list into the glob pattern, producing a bracket character class
instead of the basename, so the pattern for libz is the string shown in the
first conjunct.  Consequence at the failing input: /usr/lib, whose only file
is libpng.so, is accepted as the library root of libz (second conjunct),
although libpng.so does not start with the basename libz (third conjunct)
and does not match the pattern libz*.so that the claim and the specification
describe (fourth conjunct); it matches only the malformed class pattern
(fifth conjunct), whose class accepts any file starting with one of the
characters appearing in the list repr. -/
theorem C4_list_repr_glob :
    pyListRepr stC4.asLibFiles ++ "*" ++ ".so" = "[\x27libz\x27]*.so"
  ∧ (LibraryCheck.checkLib wC4 Target.linux "x86_64" "/vbox" stC4).map
      (fun r => (r.1.sLibPath, r.2)) = some (some "/usr/lib", true)
  ∧ strStartsWith "libpng.so" "libz" = false
  ∧ globMatch ("libz" ++ "*" ++ ".so") "libpng.so" = false
  ∧ globMatch (pyListRepr ["libz"] ++ "*" ++ ".so") "libpng.so" = true := by decide
